import Mathlib

/-
Verification development for the EstiBuild geometric/material pipeline
(source: utils.py).  Floating-point scalars are modelled as exact
rationals; the external geometry library (shapely) is modelled at its
interface: a polygon carries its scalar attributes and an oracle for the
inward-offset (buffer) operation, whose failure is an Option none.
-/

namespace EstiBuild

/-- A 2-D point in drawing units, as used by the extractor. -/
abbrev Pt := ℚ × ℚ

/-- Interface model of a shapely geometry as consumed by the code after a
buffer call: the code reads only its emptiness flag and its area. -/
structure Geom where
  is_empty : Bool
  area : ℚ

/-- Interface model of a shapely Polygon as the repository code consumes it:
the exterior point ring, the scalar attributes area, length (perimeter) and
bounds (minx, miny, maxx, maxy), plus the buffer operation as an oracle
(none models a raised exception inside the library).  The closure field
records the library invariant that an exterior ring is closed. -/
structure Polygon where
  pts : List Pt
  area : ℚ
  length : ℚ
  bounds : ℚ × ℚ × ℚ × ℚ
  buffer : ℚ → Option Geom
  closed : pts.head? = pts.getLast?

/-- A drawing entity after format decoding: a straight LINE with two
endpoints, or a poly-vertex chain (LWPOLYLINE / POLYLINE) reduced to its
2-D points.  Malformed vertex data is modelled by an empty point list. -/
inductive Entity where
  | line (p q : Pt)
  | polyVertex (pts : List Pt)

/-- utils.py lines 46-47: if pts[0] != pts[-1] then pts.append(pts[0]). -/
def forceClose (pts : List Pt) : List Pt :=
  match pts.head? with
  | none => pts
  | some p0 => if pts.getLast? = some p0 then pts else pts ++ [p0]

/-- utils.py lines 29-48: the chains (LineStrings) contributed by one
entity.  A LINE contributes its two endpoints; a poly-vertex entity with
fewer than 3 points contributes nothing, otherwise its forcibly closed
point chain. -/
def entityChains : Entity → List (List Pt)
  | .line p q => [[p, q]]
  | .polyVertex pts => if 3 ≤ pts.length then [forceClose pts] else []

/-- The flat chain collection (geom_lines) built by the entity loop. -/
def extractChains (es : List Entity) : List (List Pt) :=
  es.flatMap entityChains

/-- The edge segments of one chain: consecutive point pairs. -/
def chainSegments : List Pt → List (Pt × Pt)
  | p :: q :: rest => (p, q) :: chainSegments (q :: rest)
  | _ => []

/-- The straight segments contributed by one entity: the edge segments of
each of its chains. -/
def entitySegments (e : Entity) : List (Pt × Pt) :=
  (entityChains e).flatMap chainSegments

/-- utils.py line 55: candidates with area at most 1e-6 are dropped. -/
def noiseThreshold : ℚ := 1 / 1000000

/-- utils.py lines 50-56.  The shapely unary_union + polygonize step is
external library code, modelled by the oracle argument from chains to
candidate faces; the repository code then filters by area > 1e-6.
An empty chain collection short-circuits to the empty list. -/
def parse_dxf_to_polygons (polygonizeOracle : List (List Pt) → List Polygon)
    (entities : List Entity) : List Polygon :=
  let geom_lines := extractChains entities
  if geom_lines.isEmpty then []
  else (polygonizeOracle geom_lines).filter (fun poly => noiseThreshold < poly.area)

/-- One room record, utils.py lines 81-89. -/
structure Room where
  id : ℕ
  area : ℚ
  carpet_area : ℚ
  perimeter : ℚ
  long_wall_length : ℚ
  short_wall_length : ℚ
  bounds : ℚ × ℚ × ℚ × ℚ

/-- The totals dict, utils.py lines 102-106. -/
structure Totals where
  built_up_area : ℚ
  carpet_area : ℚ
  perimeter : ℚ
  deriving DecidableEq

/-- The result dict of compute_areas_and_walls, utils.py lines 98-108. -/
structure AggregateResult where
  units : String
  wall_thickness : ℚ
  rooms : List Room
  totals : Totals
  notes : List String

/-- utils.py lines 71-75: carpet area from the inward buffer, with the
linear fallback max(0, area - perim * wall_thickness) when the buffer is
empty or the buffer call raises. -/
def carpetAreaOf (poly : Polygon) (wall_thickness : ℚ) : ℚ :=
  match poly.buffer (-wall_thickness) with
  | some inner =>
      if inner.is_empty then max 0 (poly.area - poly.length * wall_thickness)
      else inner.area
  | none => max 0 (poly.area - poly.length * wall_thickness)

/-- The room record appended for one polygon at 1-based index idx,
utils.py lines 68-89. -/
def mkRoom (idx : ℕ) (poly : Polygon) (wall_thickness : ℚ) : Room :=
  { id := idx
    area := poly.area
    carpet_area := carpetAreaOf poly wall_thickness
    perimeter := poly.length
    long_wall_length := 2 * (poly.bounds.2.2.1 - poly.bounds.1)
    short_wall_length := 2 * (poly.bounds.2.2.2 - poly.bounds.2.1)
    bounds := poly.bounds }

/-- The enumerate loop of compute_areas_and_walls, utils.py lines 63-93:
appends one room per polygon and accumulates the three running totals. -/
def computeLoop (wall_thickness : ℚ) :
    List Polygon → ℕ → List Room → ℚ → ℚ → ℚ → List Room × ℚ × ℚ × ℚ
  | [], _, accRooms, a, c, p => (accRooms, a, c, p)
  | poly :: rest, idx, accRooms, a, c, p =>
      let r := mkRoom idx poly wall_thickness
      computeLoop wall_thickness rest (idx + 1) (accRooms ++ [r])
        (a + r.area) (c + r.carpet_area) (p + r.perimeter)

/-- utils.py lines 95-96: the advisory note is a fixed string; the 1.5
setback is formatted into it and the unit label "m" is hardcoded. -/
def marginNote : String :=
  "Recommended minimum setback/margin around building: 1.5 m (adjust per local rules)."

/-- utils.py lines 58-108. -/
def compute_areas_and_walls (polygons : List Polygon) (wall_thickness : ℚ)
    (units : String) : AggregateResult :=
  let res := computeLoop wall_thickness polygons 1 [] 0 0 0
  { units := units
    wall_thickness := wall_thickness
    rooms := res.1
    totals := ⟨res.2.1, res.2.2.1, res.2.2.2⟩
    notes := [marginNote] }

/-- One work item row, utils.py lines 183-196.  The Python dict stores the
quantity under the key quantity_m3 for the sand and coarse-aggregate rows
and quantity elsewhere; the numeric value is the quantity field here. -/
structure WorkItem where
  item : String
  quantity : ℚ
  unit : String

/-- The dict returned by concrete_materials_for_volume, utils.py 163-169. -/
structure ConcreteBreakdown where
  concrete_volume_m3 : ℚ
  cement_kg : ℚ
  cement_bags : ℚ
  sand_m3 : ℚ
  aggregate_m3 : ℚ
  deriving DecidableEq

/-- The dict returned by estimate_materials_for_workitems, 200-208. -/
structure MaterialsResult where
  workitems : List WorkItem
  concrete_breakdown : ConcreteBreakdown
  plaster_volume_m3 : ℚ
  tiles_count : ℤ
  bricks_count : ℚ
  paint_liters : ℚ
  contingency_note : String

/-- utils.py lines 153-169.  Python raises ZeroDivisionError when a
division has a zero divisor; the two divisions with non-constant divisors
(by total mix parts and by cement_bag_kg) are modelled as none in that
case, in the order the Python expressions are evaluated. -/
def concrete_materials_for_volume (vol_m3 : ℚ) (mix : ℚ × ℚ × ℚ)
    (cement_bag_kg : ℚ) : Option ConcreteBreakdown :=
  let factor : ℚ := 1.54
  let dry_volume := vol_m3 * factor
  let total_parts := mix.1 + mix.2.1 + mix.2.2
  if total_parts = 0 then none
  else
    let cement_volume := dry_volume * (mix.1 / total_parts)
    let cement_kg := cement_volume * 1440
    if cement_bag_kg = 0 then none
    else
      let cement_bags := cement_kg / cement_bag_kg
      let sand_volume := dry_volume * (mix.2.1 / total_parts)
      let agg_volume := dry_volume * (mix.2.2 / total_parts)
      some ⟨vol_m3, cement_kg, cement_bags, sand_volume, agg_volume⟩

/-- utils.py lines 110-208. -/
def estimate_materials_for_workitems (results : AggregateResult)
    (cement_bag_kg plaster_thickness_mm tile_size_mm : ℚ) :
    Option MaterialsResult :=
  let built_up := results.totals.built_up_area
  let carpet := results.totals.carpet_area
  let perimeter := results.totals.perimeter
  let excavation_volume := perimeter * 1.0 * 1.0
  let footing_depth : ℚ := 0.5
  let footing_width : ℚ := 0.6
  let footing_volume := perimeter * footing_width * footing_depth
  let slab_thickness : ℚ := 0.15
  let slab_volume := built_up * slab_thickness
  let pcc_volume := built_up * 0.10
  let wall_height : ℚ := 3.0
  let wall_volume := perimeter * results.wall_thickness * wall_height
  let bricks_per_m3 : ℚ := 500
  let bricks_required := wall_volume * bricks_per_m3
  let wall_area := perimeter * wall_height
  let plaster_thickness_m := plaster_thickness_mm / 1000.0
  let plaster_volume := wall_area * plaster_thickness_m
  let tile_area_m2 := (tile_size_mm / 1000.0) ^ 2
  let tiles_required : ℤ :=
    if 0 < tile_area_m2 then Int.ceil (carpet / tile_area_m2) else 0
  let total_concrete_volume := slab_volume + footing_volume + pcc_volume
  match concrete_materials_for_volume total_concrete_volume (1, 2, 4) cement_bag_kg with
  | none => none
  | some concrete_mat =>
      let paint_coverage_m2_per_l : ℚ := 10
      let paint_liters := wall_area / paint_coverage_m2_per_l
      let steel_per_m3 : ℚ := 80
      let reinforcement_kg := total_concrete_volume * steel_per_m3
      let workitems : List WorkItem :=
        [ ⟨"Excavation", excavation_volume, "m3"⟩,
          ⟨"PCC (under slab)", pcc_volume, "m3"⟩,
          ⟨"Footing concrete", footing_volume, "m3"⟩,
          ⟨"RCC slab/beams", slab_volume, "m3"⟩,
          ⟨"Reinforcement steel", reinforcement_kg, "kg"⟩,
          ⟨"Masonry (bricks)", bricks_required, "nos"⟩,
          ⟨"Sand (for concrete/mortar)", concrete_mat.sand_m3, "m3"⟩,
          ⟨"Coarse aggregate", concrete_mat.aggregate_m3, "m3"⟩,
          ⟨"Cement", concrete_mat.cement_bags,
            "bags (" ++ toString cement_bag_kg ++ "kg)"⟩,
          ⟨"Plaster (both sides)", plaster_volume, "m3"⟩,
          ⟨"Tiles / Flooring", (tiles_required : ℚ), "nos"⟩,
          ⟨"Paint (liters)", paint_liters, "liters"⟩ ]
      some { workitems := workitems
             concrete_breakdown := concrete_mat
             plaster_volume_m3 := plaster_volume
             tiles_count := tiles_required
             bricks_count := bricks_required
             paint_liters := paint_liters
             contingency_note := "Add ~10% contingency for waste and variations." }

/-- The rooms list produced by the enumerate loop from 1-based index idx. -/
def roomsFrom (wall_thickness : ℚ) : ℕ → List Polygon → List Room
  | _, [] => []
  | idx, poly :: rest =>
      mkRoom idx poly wall_thickness :: roomsFrom wall_thickness (idx + 1) rest

/-- A sample polygon whose bounding box is taller (5) than wide (2). -/
def tallPoly : Polygon :=
  { pts := [], area := 10, length := 14, bounds := (0, 0, 2, 5),
    buffer := fun _ => none, closed := rfl }

/-- A sample polygon whose inward buffer succeeds with a non-empty region
of area 37. -/
def bufPoly : Polygon :=
  { pts := [], area := 50, length := 30, bounds := (0, 0, 10, 5),
    buffer := fun _ => some ⟨false, 37⟩, closed := rfl }

/-- utils.py line 171: the combined slab + footing + PCC wet volume fed to
the concrete-mix sub-algorithm. -/
def totalConcreteVolume (r : AggregateResult) : ℚ :=
  r.totals.built_up_area * 0.15 + r.totals.perimeter * 0.6 * 0.5
    + r.totals.built_up_area * 0.10

/-- A sample aggregate result with nonzero totals. -/
def sampleAgg : AggregateResult :=
  { units := "meters", wall_thickness := 1/5, rooms := [],
    totals := ⟨10, 8, 12⟩, notes := [] }

/-- A sample candidate face whose area is exactly the noise threshold. -/
def pEdge : Polygon :=
  { pts := [(0, 0), (1, 0), (0, 0)], area := 1/1000000, length := 2,
    bounds := (0, 0, 1, 0), buffer := fun _ => none, closed := rfl }

/-- An oracle that reconstructs exactly the threshold-area face. -/
def edgeOracle : List (List Pt) → List Polygon := fun _ => [pEdge]

/-- A one-line drawing, so the chain collection is non-empty. -/
def edgeEntities : List Entity := [Entity.line (0, 0) (1, 1)]

/-- A sample candidate face with area well above the noise threshold. -/
def pKeep : Polygon :=
  { pts := [(0, 0), (4, 0), (4, 3), (0, 0)], area := 6, length := 12,
    bounds := (0, 0, 4, 3), buffer := fun _ => none, closed := rfl }

/-- An oracle that reconstructs exactly the kept face. -/
def keepOracle : List (List Pt) → List Polygon := fun _ => [pKeep]

/-- A one-line drawing used with keepOracle. -/
def keepEntities : List Entity := [Entity.line (0, 0) (4, 0)]

lemma computeLoop_eq (wall_thickness : ℚ) (polys : List Polygon) :
    ∀ (idx : ℕ) (accRooms : List Room) (a c p : ℚ),
    computeLoop wall_thickness polys idx accRooms a c p =
      (accRooms ++ roomsFrom wall_thickness idx polys,
       a + ((roomsFrom wall_thickness idx polys).map Room.area).sum,
       c + ((roomsFrom wall_thickness idx polys).map Room.carpet_area).sum,
       p + ((roomsFrom wall_thickness idx polys).map Room.perimeter).sum) := by
  induction polys with
  | nil =>
      intro idx accRooms a c p
      simp [computeLoop, roomsFrom]
  | cons poly rest ih =>
      intro idx accRooms a c p
      simp [computeLoop, roomsFrom, ih, List.append_assoc, add_assoc]

lemma compute_eq (polys : List Polygon) (wall_thickness : ℚ) (units : String) :
    compute_areas_and_walls polys wall_thickness units =
      { units := units
        wall_thickness := wall_thickness
        rooms := roomsFrom wall_thickness 1 polys
        totals :=
          ⟨((roomsFrom wall_thickness 1 polys).map Room.area).sum,
           ((roomsFrom wall_thickness 1 polys).map Room.carpet_area).sum,
           ((roomsFrom wall_thickness 1 polys).map Room.perimeter).sum⟩
        notes := [marginNote] } := by
  simp [compute_areas_and_walls, computeLoop_eq]

lemma roomsFrom_getElem? (wall_thickness : ℚ) (polys : List Polygon) :
    ∀ (idx i : ℕ),
    (roomsFrom wall_thickness idx polys)[i]? =
      (polys[i]?).map (fun poly => mkRoom (idx + i) poly wall_thickness) := by
  induction polys with
  | nil =>
      intro idx i
      simp [roomsFrom]
  | cons poly rest ih =>
      intro idx i
      cases i with
      | zero => simp [roomsFrom]
      | succ j =>
          have h : idx + (j + 1) = (idx + 1) + j := by omega
          simp [roomsFrom, ih (idx + 1) j, h]

/-- Claim C1: for every polygon list, wall thickness and units label, the
totals of the AggregateResult returned by compute_areas_and_walls are the
arithmetic sums of the per-room area, carpet_area and perimeter (they are
accumulated in the same loop, never recomputed from a merged boundary). -/
theorem c1_totals_are_sums (polys : List Polygon) (wall_thickness : ℚ)
    (units : String) :
    (compute_areas_and_walls polys wall_thickness units).totals.built_up_area
      = (((compute_areas_and_walls polys wall_thickness units).rooms).map Room.area).sum
  ∧ (compute_areas_and_walls polys wall_thickness units).totals.carpet_area
      = (((compute_areas_and_walls polys wall_thickness units).rooms).map Room.carpet_area).sum
  ∧ (compute_areas_and_walls polys wall_thickness units).totals.perimeter
      = (((compute_areas_and_walls polys wall_thickness units).rooms).map Room.perimeter).sum := by
  simp [compute_eq]

/-- Claim C2: for every polygon processed by compute_areas_and_walls, the
carpet area of its room equals the inward-offset area when the offset is a
non-empty region; when the offset is empty, or the offset computation
fails, it equals max(0, area - perimeter * wall_thickness); no failure is
propagated out of the stage. -/
theorem c2_carpet_offset_fallback (polys : List Polygon) (wall_thickness : ℚ)
    (units : String) (i : ℕ) (h : i < polys.length) :
    (∀ g : Geom,
      (polys.get ⟨i, h⟩).buffer (-wall_thickness) = some g → g.is_empty = false →
      (((compute_areas_and_walls polys wall_thickness units).rooms)[i]?).map Room.carpet_area
        = some g.area)
  ∧ (∀ g : Geom,
      (polys.get ⟨i, h⟩).buffer (-wall_thickness) = some g → g.is_empty = true →
      (((compute_areas_and_walls polys wall_thickness units).rooms)[i]?).map Room.carpet_area
        = some (max 0 ((polys.get ⟨i, h⟩).area - (polys.get ⟨i, h⟩).length * wall_thickness)))
  ∧ ((polys.get ⟨i, h⟩).buffer (-wall_thickness) = none →
      (((compute_areas_and_walls polys wall_thickness units).rooms)[i]?).map Room.carpet_area
        = some (max 0 ((polys.get ⟨i, h⟩).area - (polys.get ⟨i, h⟩).length * wall_thickness))) := by
  have hr : ((compute_areas_and_walls polys wall_thickness units).rooms)[i]? =
      some (mkRoom (1 + i) (polys.get ⟨i, h⟩) wall_thickness) := by
    simp [compute_eq, roomsFrom_getElem?, List.getElem?_eq_getElem h]
  refine ⟨?_, ?_, ?_⟩
  · intro g hg hempty
    rw [hr]
    simp only [List.get_eq_getElem] at hg
    simp [mkRoom, carpetAreaOf, hg, hempty]
  · intro g hg hempty
    rw [hr]
    simp only [List.get_eq_getElem] at hg
    simp [mkRoom, carpetAreaOf, hg, hempty]
  · intro hg
    rw [hr]
    simp only [List.get_eq_getElem] at hg
    simp [mkRoom, carpetAreaOf, hg]

/-- Claim C2, witness: a concrete polygon whose buffer returns a non-empty
region of area 37 gets exactly that carpet area. -/
theorem c2_carpet_offset_fallback_witness :
    (((compute_areas_and_walls [bufPoly] (1/5) "meters").rooms)[0]?).map Room.carpet_area
      = some 37 :=
  (c2_carpet_offset_fallback [bufPoly] (1/5) "meters" 0 (by simp)).1 ⟨false, 37⟩ rfl rfl

/-- Claim C10: long_wall_length and short_wall_length are assigned by axis,
not by magnitude: long is twice the bounding-box x-extent and short twice
the y-extent, and a polygon with a taller-than-wide bounding box gets
long_wall_length < short_wall_length. -/
theorem c10_wall_lengths_by_axis (polys : List Polygon) (wall_thickness : ℚ)
    (units : String) (i : ℕ) :
    (((compute_areas_and_walls polys wall_thickness units).rooms)[i]?).map Room.long_wall_length
      = (polys[i]?).map (fun poly => 2 * (poly.bounds.2.2.1 - poly.bounds.1))
  ∧ (((compute_areas_and_walls polys wall_thickness units).rooms)[i]?).map Room.short_wall_length
      = (polys[i]?).map (fun poly => 2 * (poly.bounds.2.2.2 - poly.bounds.2.1))
  ∧ (∃ r ∈ (compute_areas_and_walls [tallPoly] wall_thickness units).rooms,
      r.long_wall_length < r.short_wall_length) := by
  refine ⟨?_, ?_, ?_⟩
  · simp only [compute_eq, roomsFrom_getElem?]
    cases polys[i]? <;> simp [mkRoom]
  · simp only [compute_eq, roomsFrom_getElem?]
    cases polys[i]? <;> simp [mkRoom]
  · refine ⟨mkRoom 1 tallPoly wall_thickness, ?_, ?_⟩
    · simp [compute_eq, roomsFrom]
    · norm_num [mkRoom, tallPoly]

lemma concrete_some (v bag : ℚ) (hbag : bag ≠ 0) :
    concrete_materials_for_volume v (1, 2, 4) bag =
      some ⟨v, v * 1.54 * (1/7) * 1440, v * 1.54 * (1/7) * 1440 / bag,
            v * 1.54 * (2/7), v * 1.54 * (4/7)⟩ := by
  simp only [concrete_materials_for_volume]
  norm_num [hbag]

lemma concrete_bag_zero (v : ℚ) :
    concrete_materials_for_volume v (1, 2, 4) 0 = none := by
  simp only [concrete_materials_for_volume]
  norm_num

lemma estimate_fields (r : AggregateResult) (bag pl tl : ℚ) (hbag : bag ≠ 0) :
    ∃ m, estimate_materials_for_workitems r bag pl tl = some m
      ∧ m.concrete_breakdown =
          ⟨totalConcreteVolume r,
           totalConcreteVolume r * 1.54 * (1/7) * 1440,
           totalConcreteVolume r * 1.54 * (1/7) * 1440 / bag,
           totalConcreteVolume r * 1.54 * (2/7),
           totalConcreteVolume r * 1.54 * (4/7)⟩
      ∧ m.bricks_count = r.totals.perimeter * r.wall_thickness * 3 * 500
      ∧ m.plaster_volume_m3 = r.totals.perimeter * 3 * (pl / 1000)
      ∧ m.paint_liters = r.totals.perimeter * 3 / 10
      ∧ m.tiles_count =
          (if 0 < (tl / 1000) ^ 2
           then Int.ceil (r.totals.carpet_area / (tl / 1000) ^ 2) else 0)
      ∧ m.workitems.map WorkItem.quantity =
          [r.totals.perimeter * 1 * 1,
           r.totals.built_up_area * 0.10,
           r.totals.perimeter * 0.6 * 0.5,
           r.totals.built_up_area * 0.15,
           totalConcreteVolume r * 80,
           r.totals.perimeter * r.wall_thickness * 3 * 500,
           totalConcreteVolume r * 1.54 * (2/7),
           totalConcreteVolume r * 1.54 * (4/7),
           totalConcreteVolume r * 1.54 * (1/7) * 1440 / bag,
           r.totals.perimeter * 3 * (pl / 1000),
           ((if 0 < (tl / 1000) ^ 2
             then Int.ceil (r.totals.carpet_area / (tl / 1000) ^ 2) else 0 : ℤ) : ℚ),
           r.totals.perimeter * 3 / 10] := by
  simp only [estimate_materials_for_workitems]
  rw [show r.totals.built_up_area * 0.15 + r.totals.perimeter * 0.6 * 0.5
        + r.totals.built_up_area * 0.10 = totalConcreteVolume r from rfl]
  rw [concrete_some (totalConcreteVolume r) bag hbag]
  refine ⟨_, rfl, ?_, ?_, ?_, ?_, ?_, ?_⟩ <;> norm_num

/-- Claim C3: for every non-negative volume and the 1:2:4 mix, the
concrete-mix sub-algorithm yields dry volume v * 1.54, cement volume
dry * 1/7, cement mass = cement volume * 1440, cement bags = mass /
cement_bag_kg, sand = dry * 2/7 and aggregate = dry * 4/7; and in
estimate_materials_for_workitems it is invoked exactly once, on the
combined slab + footing + PCC volume, giving the concrete_breakdown. -/
theorem c3_concrete_mix (v bag pl tl : ℚ) (r : AggregateResult)
    (_hv : 0 ≤ v) (hbag : bag ≠ 0) :
    (∃ cb, concrete_materials_for_volume v (1, 2, 4) bag = some cb
      ∧ cb.concrete_volume_m3 = v
      ∧ cb.cement_kg = v * 1.54 * (1/7) * 1440
      ∧ cb.cement_bags = cb.cement_kg / bag
      ∧ cb.sand_m3 = v * 1.54 * (2/7)
      ∧ cb.aggregate_m3 = v * 1.54 * (4/7))
  ∧ (estimate_materials_for_workitems r bag pl tl).map MaterialsResult.concrete_breakdown
      = concrete_materials_for_volume
          (r.totals.built_up_area * 0.15 + r.totals.perimeter * 0.6 * 0.5
            + r.totals.built_up_area * 0.10) (1, 2, 4) bag := by
  constructor
  · rw [concrete_some v bag hbag]
    exact ⟨_, rfl, rfl, rfl, rfl, rfl, rfl⟩
  · obtain ⟨m, hm, hcb, -, -, -, -, -⟩ := estimate_fields r bag pl tl hbag
    rw [hm, concrete_some _ bag hbag]
    simp only [Option.map_some']
    rw [hcb]
    rfl

/-- Claim C3, witness: the sub-algorithm evaluated at volume 2 and bag
mass 50, and the estimator breakdown at a concrete aggregate result. -/
theorem c3_concrete_mix_witness :
    (∃ cb, concrete_materials_for_volume 2 (1, 2, 4) 50 = some cb
      ∧ cb.concrete_volume_m3 = 2
      ∧ cb.cement_kg = 2 * 1.54 * (1/7) * 1440
      ∧ cb.cement_bags = cb.cement_kg / 50
      ∧ cb.sand_m3 = 2 * 1.54 * (2/7)
      ∧ cb.aggregate_m3 = 2 * 1.54 * (4/7))
  ∧ (estimate_materials_for_workitems sampleAgg 50 12 600).map MaterialsResult.concrete_breakdown
      = concrete_materials_for_volume
          (sampleAgg.totals.built_up_area * 0.15 + sampleAgg.totals.perimeter * 0.6 * 0.5
            + sampleAgg.totals.built_up_area * 0.10) (1, 2, 4) 50 :=
  c3_concrete_mix 2 50 12 600 sampleAgg (by norm_num) (by norm_num)

/-- Claim C4 counterexample: two aggregate results identical except for a
strictly larger wall thickness, with zero total perimeter: bricks_count
and plaster_volume_m3 are unchanged, so neither is strictly larger. -/
theorem c4_material_monotonicity_counterexample :
    ((1 : ℚ)/5 < 3/10)
  ∧ (estimate_materials_for_workitems ⟨"meters", 3/10, [], ⟨5, 4, 0⟩, []⟩ 50 12 600).map
        MaterialsResult.bricks_count
      = (estimate_materials_for_workitems ⟨"meters", 1/5, [], ⟨5, 4, 0⟩, []⟩ 50 12 600).map
        MaterialsResult.bricks_count
  ∧ (estimate_materials_for_workitems ⟨"meters", 3/10, [], ⟨5, 4, 0⟩, []⟩ 50 12 600).map
        MaterialsResult.plaster_volume_m3
      = (estimate_materials_for_workitems ⟨"meters", 1/5, [], ⟨5, 4, 0⟩, []⟩ 50 12 600).map
        MaterialsResult.plaster_volume_m3
  ∧ (estimate_materials_for_workitems ⟨"meters", 1/5, [], ⟨5, 4, 0⟩, []⟩ 50 12 600).isSome
      = true := by
  obtain ⟨m1, hm1, -, hbr1, hpl1, -, -, -⟩ :=
    estimate_fields ⟨"meters", 1/5, [], ⟨5, 4, 0⟩, []⟩ 50 12 600 (by norm_num)
  obtain ⟨m2, hm2, -, hbr2, hpl2, -, -, -⟩ :=
    estimate_fields ⟨"meters", 3/10, [], ⟨5, 4, 0⟩, []⟩ 50 12 600 (by norm_num)
  refine ⟨by norm_num, ?_, ?_, ?_⟩
  · rw [hm1, hm2, Option.map_some', Option.map_some', hbr1, hbr2]
    norm_num
  · rw [hm1, hm2, Option.map_some', Option.map_some', hpl1, hpl2]
  · rw [hm1]
    rfl

/-- Claim C4, amended: with all else fixed and a strictly positive total
perimeter, a strictly larger wall_thickness strictly increases
bricks_count, leaves plaster_volume_m3 unchanged (it does not depend on
wall thickness), and leaves the concrete-derived cement bags, sand and
aggregate quantities unchanged, hence no smaller. -/
theorem c4_material_monotonicity (units : String) (wt1 wt2 : ℚ)
    (rooms : List Room) (totals : Totals) (notes : List String)
    (bag pl tl : ℚ) (hw : wt1 < wt2) (hp : 0 < totals.perimeter)
    (hbag : bag ≠ 0) :
    ∃ m1 m2,
      estimate_materials_for_workitems ⟨units, wt1, rooms, totals, notes⟩ bag pl tl = some m1
    ∧ estimate_materials_for_workitems ⟨units, wt2, rooms, totals, notes⟩ bag pl tl = some m2
    ∧ m1.bricks_count < m2.bricks_count
    ∧ m1.plaster_volume_m3 = m2.plaster_volume_m3
    ∧ m1.concrete_breakdown.cement_bags = m2.concrete_breakdown.cement_bags
    ∧ m1.concrete_breakdown.sand_m3 = m2.concrete_breakdown.sand_m3
    ∧ m1.concrete_breakdown.aggregate_m3 = m2.concrete_breakdown.aggregate_m3 := by
  obtain ⟨m1, hm1, hcb1, hbr1, hpl1, -, -, -⟩ :=
    estimate_fields ⟨units, wt1, rooms, totals, notes⟩ bag pl tl hbag
  obtain ⟨m2, hm2, hcb2, hbr2, hpl2, -, -, -⟩ :=
    estimate_fields ⟨units, wt2, rooms, totals, notes⟩ bag pl tl hbag
  refine ⟨m1, m2, hm1, hm2, ?_, ?_, ?_, ?_, ?_⟩
  · rw [hbr1, hbr2]
    show totals.perimeter * wt1 * 3 * 500 < totals.perimeter * wt2 * 3 * 500
    have hmul : totals.perimeter * wt1 < totals.perimeter * wt2 :=
      mul_lt_mul_of_pos_left hw hp
    nlinarith [hmul]
  · rw [hpl1, hpl2]
  · rw [hcb1, hcb2]
    rfl
  · rw [hcb1, hcb2]
    rfl
  · rw [hcb1, hcb2]
    rfl

/-- Claim C4, witness: concrete instantiation with perimeter 12 and wall
thicknesses 1/5 < 3/10. -/
theorem c4_material_monotonicity_witness :
    ∃ m1 m2,
      estimate_materials_for_workitems ⟨"meters", 1/5, [], ⟨10, 8, 12⟩, []⟩ 50 12 600 = some m1
    ∧ estimate_materials_for_workitems ⟨"meters", 3/10, [], ⟨10, 8, 12⟩, []⟩ 50 12 600 = some m2
    ∧ m1.bricks_count < m2.bricks_count
    ∧ m1.plaster_volume_m3 = m2.plaster_volume_m3
    ∧ m1.concrete_breakdown.cement_bags = m2.concrete_breakdown.cement_bags
    ∧ m1.concrete_breakdown.sand_m3 = m2.concrete_breakdown.sand_m3
    ∧ m1.concrete_breakdown.aggregate_m3 = m2.concrete_breakdown.aggregate_m3 :=
  c4_material_monotonicity "meters" (1/5) (3/10) [] ⟨10, 8, 12⟩ [] 50 12 600
    (by norm_num) (by norm_num) (by norm_num)

/-- Claim C5 counterexample: with cement_bag_kg = 0 the unguarded division
cement_kg / cement_bag_kg faults (Python ZeroDivisionError, modelled as
none), even on validated zero totals, so the estimator does not run
fault-free for every value of its tunable constants. -/
theorem c5_no_fault_counterexample :
    estimate_materials_for_workitems ⟨"meters", 1/5, [], ⟨0, 0, 0⟩, []⟩ 0 12 600
      = none := by
  simp only [estimate_materials_for_workitems]
  rw [concrete_bag_zero]

/-- Claim C5, amended: estimate_materials_for_workitems faults for no
AggregateResult and no tunable constants with cement_bag_kg nonzero; in
particular a zero tile area yields tiles_count 0, not a division fault. -/
theorem c5_no_fault (r : AggregateResult) (bag pl tl : ℚ) (hbag : bag ≠ 0) :
    ∃ m, estimate_materials_for_workitems r bag pl tl = some m
      ∧ ((tl / 1000) ^ 2 = 0 → m.tiles_count = 0) := by
  obtain ⟨m, hm, -, -, -, -, htile, -⟩ := estimate_fields r bag pl tl hbag
  refine ⟨m, hm, fun h0 => ?_⟩
  rw [htile, h0]
  simp

/-- Claim C5, witness: with tile_size_mm = 0 the tile area is 0 and the
estimator returns tiles_count 0 without fault. -/
theorem c5_no_fault_witness :
    ∃ m, estimate_materials_for_workitems sampleAgg 50 12 0 = some m
      ∧ (((0 : ℚ) / 1000) ^ 2 = 0 → m.tiles_count = 0) :=
  c5_no_fault sampleAgg 50 12 0 (by norm_num)

/-- Claim C8: on empty input the pipeline degrades without faulting: an
empty chain collection yields an empty polygon set, compute_areas_and_walls
on no polygons yields no rooms and totals (0, 0, 0), and the estimator on
those zero totals (default constants) yields twelve zero work-item
quantities, tiles_count 0 and no division fault. -/
theorem c8_degenerate_input (oracle : List (List Pt) → List Polygon)
    (es : List Entity) (wall_thickness : ℚ) (units : String)
    (h : extractChains es = []) :
    parse_dxf_to_polygons oracle es = []
  ∧ (compute_areas_and_walls [] wall_thickness units).rooms = []
  ∧ (compute_areas_and_walls [] wall_thickness units).totals = ⟨0, 0, 0⟩
  ∧ ∃ m, estimate_materials_for_workitems
        (compute_areas_and_walls [] wall_thickness units) 50 12 600 = some m
      ∧ m.workitems.map WorkItem.quantity = [0, 0, 0, 0, 0, 0, 0, 0, 0, 0, 0, 0]
      ∧ m.tiles_count = 0
      ∧ m.bricks_count = 0
      ∧ m.plaster_volume_m3 = 0
      ∧ m.paint_liters = 0 := by
  have ht : (compute_areas_and_walls [] wall_thickness units).totals = ⟨0, 0, 0⟩ := by
    simp [compute_eq, roomsFrom]
  refine ⟨by simp [parse_dxf_to_polygons, h], by simp [compute_eq, roomsFrom], ht, ?_⟩
  obtain ⟨m, hm, hcb, hbr, hpl, hpaint, htile, hq⟩ :=
    estimate_fields (compute_areas_and_walls [] wall_thickness units) 50 12 600
      (by norm_num)
  refine ⟨m, hm, ?_, ?_, ?_, ?_, ?_⟩
  · rw [hq]
    norm_num [totalConcreteVolume, ht, compute_eq, roomsFrom]
  · rw [htile]
    norm_num [ht]
  · rw [hbr]
    norm_num [ht]
  · rw [hpl]
    norm_num [ht]
  · rw [hpaint]
    norm_num [ht]

/-- Claim C8, witness: the concrete instantiation with no entities, the
constant empty oracle, default wall thickness 1/5 and unit label. -/
theorem c8_degenerate_input_witness :
    parse_dxf_to_polygons (fun _ => []) [] = []
  ∧ (compute_areas_and_walls [] (1/5) "meters").rooms = []
  ∧ (compute_areas_and_walls [] (1/5) "meters").totals = ⟨0, 0, 0⟩
  ∧ ∃ m, estimate_materials_for_workitems
        (compute_areas_and_walls [] (1/5) "meters") 50 12 600 = some m
      ∧ m.workitems.map WorkItem.quantity = [0, 0, 0, 0, 0, 0, 0, 0, 0, 0, 0, 0]
      ∧ m.tiles_count = 0
      ∧ m.bricks_count = 0
      ∧ m.plaster_volume_m3 = 0
      ∧ m.paint_liters = 0 :=
  c8_degenerate_input (fun _ => []) [] (1/5) "meters" rfl

/-- Claim C6 counterexample: a candidate face whose area is exactly the
1e-6 noise threshold is not below the threshold, yet it is discarded,
because the filter keeps only area strictly above the threshold. -/
theorem c6_noise_threshold_counterexample :
    pEdge ∈ edgeOracle (extractChains edgeEntities)
  ∧ ¬ (pEdge.area < noiseThreshold)
  ∧ pEdge ∉ parse_dxf_to_polygons edgeOracle edgeEntities := by
  refine ⟨by simp [edgeOracle], by norm_num [pEdge, noiseThreshold], ?_⟩
  have hparse : parse_dxf_to_polygons edgeOracle edgeEntities = [] := by
    norm_num [parse_dxf_to_polygons, extractChains, entityChains, edgeEntities,
      edgeOracle, pEdge, noiseThreshold, List.filter_cons]
  rw [hparse]
  exact List.not_mem_nil _

/-- Claim C6, amended: the Reconstructor discards exactly those candidate
faces whose area is at most the 1e-6 noise threshold (it keeps a candidate
iff its area is strictly above the threshold), and every polygon it emits
is closed (first point equals last point) with area above the threshold. -/
theorem c6_noise_threshold (oracle : List (List Pt) → List Polygon)
    (es : List Entity) (p : Polygon) :
    (p ∈ parse_dxf_to_polygons oracle es →
      noiseThreshold < p.area ∧ p.pts.head? = p.pts.getLast?)
  ∧ (extractChains es ≠ [] → p ∈ oracle (extractChains es) →
      (p ∈ parse_dxf_to_polygons oracle es ↔ noiseThreshold < p.area)) := by
  constructor
  · intro hp
    have hlt : noiseThreshold < p.area := by
      by_cases h : (extractChains es).isEmpty
      · simp [parse_dxf_to_polygons, h] at hp
      · simp [parse_dxf_to_polygons, h, List.mem_filter] at hp
        exact hp.2
    exact ⟨hlt, p.closed⟩
  · intro hne hmem
    have h : (extractChains es).isEmpty = false := by
      cases hL : extractChains es with
      | nil => exact absurd hL hne
      | cons a l => rfl
    simp [parse_dxf_to_polygons, h, List.mem_filter, hmem]

/-- Claim C6, witness: a candidate of area 6 produced by a concrete oracle
on a non-empty drawing is kept iff its area exceeds the threshold. -/
theorem c6_noise_threshold_witness :
    pKeep ∈ parse_dxf_to_polygons keepOracle keepEntities ↔
      noiseThreshold < pKeep.area :=
  (c6_noise_threshold keepOracle keepEntities pKeep).2
    (by simp [extractChains, entityChains, keepEntities])
    (by simp [keepOracle])

/-- Claim C7: a poly-vertex entity with fewer than 3 points contributes no
segments; one with at least 3 points whose first point differs from its
last has its first point appended (forcing closure) before its edge
segments are produced. -/
theorem c7_polyvertex_extraction (pts : List Pt) :
    (pts.length < 3 → entitySegments (Entity.polyVertex pts) = [])
  ∧ (∀ p0 : Pt, 3 ≤ pts.length → pts.head? = some p0 →
      pts.getLast? ≠ some p0 →
      entitySegments (Entity.polyVertex pts) = chainSegments (pts ++ [p0])) := by
  constructor
  · intro h
    simp [entitySegments, entityChains, Nat.not_le.mpr h]
  · intro p0 h3 hhead hlast
    simp [entitySegments, entityChains, h3, forceClose, hhead, hlast]

/-- Claim C7, witness: a 2-point chain contributes nothing; an open
3-point chain is closed with its first point before segment extraction. -/
theorem c7_polyvertex_extraction_witness :
    entitySegments (Entity.polyVertex [((0 : ℚ), (0 : ℚ)), (4, 0)]) = []
  ∧ entitySegments (Entity.polyVertex [((0 : ℚ), (0 : ℚ)), (4, 0), (4, 3)])
      = chainSegments [((0 : ℚ), (0 : ℚ)), (4, 0), (4, 3), (0, 0)] :=
  ⟨(c7_polyvertex_extraction [((0 : ℚ), (0 : ℚ)), (4, 0)]).1 (by decide),
   (c7_polyvertex_extraction [((0 : ℚ), (0 : ℚ)), (4, 0), (4, 3)]).2
     (0, 0) (by decide) rfl (by decide)⟩

set_option maxRecDepth 8192 in
/-- Claim C9 counterexample: the advisory note does not reference the
configured unit system: the notes output is identical for units "feet" and
units "meters", and the note text does not contain "feet" (it hardcodes
the metre label "m"). -/
theorem c9_fixed_note_counterexample :
    (compute_areas_and_walls [] (1/5) "feet").notes
      = (compute_areas_and_walls [] (1/5) "meters").notes
  ∧ ¬ ("feet".data <:+: marginNote.data) := by
  exact ⟨by simp [compute_eq], by decide⟩

/-- Claim C9, amended: every call to compute_areas_and_walls returns
exactly one fixed advisory note recommending a minimum setback of 1.5,
phrased with a hardcoded metre label independent of the units parameter. -/
theorem c9_fixed_note (polys : List Polygon) (wall_thickness : ℚ)
    (units : String) :
    (compute_areas_and_walls polys wall_thickness units).notes =
      ["Recommended minimum setback/margin around building: 1.5 m (adjust per local rules)."] := by
  simp [compute_eq, marginNote]

end EstiBuild
